import Mathlib

/-!
Verification of the chat-completions reverse proxy in `APIproxy.py`.

Shallow embedding conventions:
* A Python header dict is a `List (String × String)` in insertion order
  (inbound dicts have unique keys; the filters never rely on uniqueness).
* Raw bytes are `List Nat`.
* A decoded JSON document (`json.loads` result) is a `JValue`; the outcome of
  `json.loads(body.decode("utf-8"))` on a raw body is an `Option JValue`
  (`none` = the decode raised, caught by the handler's `except Exception`).
* Python exceptions escaping repo code are `Except PyExn` results.
-/

namespace APIproxy

/-- Byte strings (request/response bodies, stream chunks). -/
abbrev Bytes := List Nat

/-- Header mappings, insertion ordered, as produced by `dict(...)`. -/
abbrev Headers := List (String × String)

/-- The `hop_by_hop` set of `_filtered_headers_for_upstream` (lines 23-35). -/
def hopByHopUpstream : List String :=
  ["host", "content-length", "connection", "keep-alive", "proxy-authenticate",
   "proxy-authorization", "te", "trailers", "transfer-encoding", "upgrade",
   "accept-encoding"]

/-- The `hop_by_hop` set of `_filtered_headers_for_client` (lines 48-58). -/
def hopByHopClient : List String :=
  ["connection", "keep-alive", "proxy-authenticate", "proxy-authorization",
   "te", "trailers", "transfer-encoding", "upgrade", "content-encoding"]

/-- `_filtered_headers_for_upstream`: the `for k, v in original_headers.items()`
loop that skips entries whose lowercased key is in `hop_by_hop` and copies the
rest into `new_headers` in order (lines 37-44). -/
def filteredHeadersForUpstream : Headers → Headers
  | [] => []
  | (k, v) :: rest =>
      if hopByHopUpstream.contains k.toLower then
        filteredHeadersForUpstream rest
      else
        (k, v) :: filteredHeadersForUpstream rest

/-- `_filtered_headers_for_client`: the same loop with the client-direction
`hop_by_hop` set (lines 60-67). -/
def filteredHeadersForClient : Headers → Headers
  | [] => []
  | (k, v) :: rest =>
      if hopByHopClient.contains k.toLower then
        filteredHeadersForClient rest
      else
        (k, v) :: filteredHeadersForClient rest

/-- Decoded JSON documents, the possible results of `json.loads`.
Numbers are modelled as integers; none of the proxy's logic depends on
non-integral numeric values. -/
inductive JValue where
  | null : JValue
  | bool : Bool → JValue
  | num : Int → JValue
  | str : String → JValue
  | arr : List JValue → JValue
  | obj : List (String × JValue) → JValue

/-- Python truthiness (`bool(x)`) on decoded JSON values: `None`, `False`,
`0`, `""`, `[]` and `{}` are falsy, everything else truthy. -/
def truthy : JValue → Bool
  | .null => false
  | .bool b => b
  | .num n => n != 0
  | .str s => s != ""
  | .arr xs => !xs.isEmpty
  | .obj fields => !fields.isEmpty

/-- Python `dict.get(key)` on a decoded JSON object: the value of the last
binding of `key` (later duplicate keys win in `json.loads`), else `None`. -/
def dictGet (fields : List (String × JValue)) (key : String) : Option JValue :=
  match fields with
  | [] => none
  | (k, v) :: rest =>
      match dictGet rest key with
      | some w => some w
      | none => if k = key then some v else none

/-- Python exceptions relevant to the handler. -/
inductive PyExn where
  | attributeError
  | connectError
  | readError
deriving DecidableEq

/-- Python `bool(...)` applied to the result of `dict.get` (which is `None`
when the key is absent). -/
def pyBool : Option JValue → Bool
  | none => false
  | some v => truthy v

/-- Lines 89-94 of the handler: `payload = json.loads(...)` with
`except Exception: payload = {}`, then `is_stream = bool(payload.get("stream"))`.
On a decode failure `payload` is the empty dict, so `is_stream` is `False`.
`payload.get` only exists on dict payloads; on any other decoded value
(list, string, number, bool, null) line 94 raises `AttributeError`, which
nothing in the handler catches. -/
def classifyStream (decoded : Option JValue) : Except PyExn Bool :=
  match decoded with
  | none => .ok (pyBool (dictGet [] "stream"))
  | some (.obj fields) => .ok (pyBool (dictGet fields "stream"))
  | some _ => .error .attributeError

/-- The startup configuration relevant to forwarding (lines 11-12). -/
structure Config where
  UPSTREAM_BASE_URL : String
  UPSTREAM_API_KEY : Option String

/-- Line 98: `upstream_url = f"{UPSTREAM_BASE_URL.rstrip('/')}/chat/completions"`.
Python `rstrip('/')` removes every trailing slash. -/
def upstreamUrl (cfg : Config) : String :=
  cfg.UPSTREAM_BASE_URL.dropRightWhile (· = '/') ++ "/chat/completions"

/-- The outbound request the proxy issues to the upstream service. -/
structure UpstreamRequest where
  method : String
  url : String
  headers : Headers
  body : Bytes
deriving DecidableEq

/-- How the upstream byte stream ends, as seen through `r.aiter_bytes()`
inside `event_generator`. -/
inductive StreamEnd where
  | eof          -- upstream closed the stream normally
  | streamClosed -- the transport raised httpx.StreamClosed
  | otherError   -- any other exception: immediate connect failure, mid-stream read error, ...
deriving DecidableEq

/-- One streaming upstream interaction: the chunks `r.aiter_bytes()` produced
before the stream ended, and how it ended. An immediate connection failure is
`delivered = []` with `ending = .otherError` (httpx raises before any chunk). -/
structure StreamBehavior where
  delivered : List Bytes
  ending : StreamEnd
deriving DecidableEq

/-- What the async generator does: the chunks it yields to the client and the
exception, if any, escaping it. -/
structure GenOutput where
  yields : List Bytes
  raised : Option PyExn
deriving DecidableEq

/-- `event_generator` (lines 104-122): iterate the upstream chunks, yielding
each chunk that passes `if chunk:` (nonempty), then either finish normally on
upstream EOF, or swallow the exception — `except httpx.StreamClosed` and
`except Exception` both just print and fall off the end of the generator. -/
def event_generator (up : StreamBehavior) : GenOutput :=
  let yields := up.delivered.filter (fun chunk => !chunk.isEmpty)
  match up.ending with
  | .eof => { yields := yields, raised := none }
  | .streamClosed => { yields := yields, raised := none }
  | .otherError => { yields := yields, raised := none }

/-- One buffered (non-streaming) upstream interaction for lines 131-139:
either a complete response, or `client.stream(...)` raising on entry
(connection failure / timeout), or `r.aread()` raising after a partial read. -/
inductive BufferedUpstream where
  | response (status : Nat) (headers : Headers) (body : Bytes)
  | connectError
  | readError (got : Bytes)
deriving DecidableEq

/-- httpx case-insensitive header lookup, `r.headers.get(key)` (line 137):
the first entry whose lowercased name matches, else `None`. -/
def headersGet (hs : Headers) (key : String) : Option String :=
  match hs with
  | [] => none
  | (k, v) :: rest => if k.toLower = key.toLower then some v else headersGet rest key

/-- The `Response(...)` built on lines 141-146. -/
structure ClientResponse where
  status : Nat
  headers : Headers
  body : Bytes
  media_type : Option String
deriving DecidableEq

/-- Lines 131-146, the non-streaming branch: read `content-type` (default ""),
filter the upstream headers for the client, buffer the whole body, and build
`Response(content=resp_body, status_code=r.status_code, headers=client_headers,
media_type=content_type or None)`. An exception from the upstream call or the
read propagates out of the handler (nothing catches it on this path). -/
def nonStreamingBranch (up : BufferedUpstream) : Except PyExn ClientResponse :=
  match up with
  | .response status hs body =>
      let content_type := (headersGet hs "content-type").getD ""
      let client_headers := filteredHeadersForClient hs
      .ok { status := status, headers := client_headers, body := body,
            media_type := if content_type = "" then none else some content_type }
  | .connectError => .error .connectError
  | .readError _ => .error .readError

/-- What `proxy_chat_completions` hands back to the server: a started
streaming response, a buffered response, or an exception escaping the
handler (which the ASGI framework surfaces as a 500 server error). -/
inductive HandlerResult where
  | streaming (status : Nat) (media_type : String) (gen : GenOutput)
  | buffered (resp : ClientResponse)
  | raised (e : PyExn)
deriving DecidableEq

/-- An inbound request: its headers (`dict(request.headers)`), its raw body
bytes (`await request.body()`), and the outcome of
`json.loads(body.decode("utf-8"))` on those bytes (`none` = raised). -/
structure Inbound where
  headers : Headers
  body : Bytes
  decoded : Option JValue

/-- The observable behaviour of one handler invocation: the upstream request
issued (`none` when the handler raised before contacting the upstream) and
the result delivered to the server. -/
structure HandlerTrace where
  sent : Option UpstreamRequest
  result : HandlerResult
deriving DecidableEq

/-- `proxy_chat_completions` (lines 73-146): classify via the body's `stream`
flag, filter the request headers, build the upstream URL, then branch.
The streaming branch returns `StreamingResponse(event_generator(), 200,
"text/event-stream")`; the non-streaming branch performs the buffered
upstream exchange. `streamUp`/`bufferedUp` describe what the single upstream
call would do in the respective mode. -/
def proxy_chat_completions (cfg : Config) (req : Inbound)
    (streamUp : StreamBehavior) (bufferedUp : BufferedUpstream) : HandlerTrace :=
  match classifyStream req.decoded with
  | .error e => { sent := none, result := .raised e }
  | .ok is_stream =>
      let upstream_headers := filteredHeadersForUpstream req.headers
      let ureq : UpstreamRequest :=
        { method := "POST", url := upstreamUrl cfg,
          headers := upstream_headers, body := req.body }
      if is_stream then
        { sent := some ureq,
          result := .streaming 200 "text/event-stream" (event_generator streamUp) }
      else
        match nonStreamingBranch bufferedUp with
        | .ok resp => { sent := some ureq, result := .buffered resp }
        | .error e => { sent := some ureq, result := .raised e }

end APIproxy

namespace APIproxy

theorem filteredHeadersForUpstream_eq_filter (hs : Headers) :
    filteredHeadersForUpstream hs =
      hs.filter (fun kv => !(hopByHopUpstream.contains kv.1.toLower)) := by
  induction hs with
  | nil => rfl
  | cons hd tl ih =>
      obtain ⟨k, v⟩ := hd
      simp only [filteredHeadersForUpstream, List.filter_cons, ih]
      by_cases hk : hopByHopUpstream.contains k.toLower
      · simp [hk]
      · simp [hk]

theorem filteredHeadersForClient_eq_filter (hs : Headers) :
    filteredHeadersForClient hs =
      hs.filter (fun kv => !(hopByHopClient.contains kv.1.toLower)) := by
  induction hs with
  | nil => rfl
  | cons hd tl ih =>
      obtain ⟨k, v⟩ := hd
      simp only [filteredHeadersForClient, List.filter_cons, ih]
      by_cases hk : hopByHopClient.contains k.toLower
      · simp [hk]
      · simp [hk]

theorem filteredHeadersForUpstream_mem (hs : Headers) (kv : String × String) :
    kv ∈ filteredHeadersForUpstream hs ↔
      kv ∈ hs ∧ kv.1.toLower ∉ hopByHopUpstream := by
  rw [filteredHeadersForUpstream_eq_filter, List.mem_filter]
  simp [List.elem_iff]

theorem filteredHeadersForClient_mem (hs : Headers) (kv : String × String) :
    kv ∈ filteredHeadersForClient hs ↔
      kv ∈ hs ∧ kv.1.toLower ∉ hopByHopClient := by
  rw [filteredHeadersForClient_eq_filter, List.mem_filter]
  simp [List.elem_iff]

theorem pyBool_eq_true_iff (o : Option JValue) :
    pyBool o = true ↔ ∃ v, o = some v ∧ truthy v = true := by
  cases o with
  | none => simp [pyBool]
  | some v => simp [pyBool]

theorem event_generator_eq (sb : StreamBehavior) :
    event_generator sb =
      { yields := sb.delivered.filter (fun chunk => !chunk.isEmpty),
        raised := none } := by
  cases hend : sb.ending <;> simp [event_generator, hend]

theorem flatten_filter_nonempty (l : List Bytes) :
    (l.filter (fun chunk => !chunk.isEmpty)).flatten = l.flatten := by
  induction l with
  | nil => rfl
  | cons c rest ih =>
      cases c with
      | nil => simpa [List.filter_cons] using ih
      | cons b bs => simp [List.filter_cons, ih]

theorem proxy_ok_sent (cfg : Config) (req : Inbound) (sb : StreamBehavior)
    (bu : BufferedUpstream) (b : Bool)
    (hc : classifyStream req.decoded = .ok b) :
    (proxy_chat_completions cfg req sb bu).sent =
      some { method := "POST", url := upstreamUrl cfg,
             headers := filteredHeadersForUpstream req.headers,
             body := req.body } := by
  unfold proxy_chat_completions
  rw [hc]
  cases b with
  | true => rfl
  | false => cases hnb : nonStreamingBranch bu <;> simp [hnb]

theorem proxy_raised_of_classify_error (cfg : Config) (req : Inbound)
    (sb : StreamBehavior) (bu : BufferedUpstream) (e : PyExn)
    (hc : classifyStream req.decoded = .error e) :
    proxy_chat_completions cfg req sb bu =
      { sent := none, result := .raised e } := by
  unfold proxy_chat_completions
  rw [hc]

/-- C1: for every header mapping and each direction, the filtered mapping
contains exactly the entries whose lowercased key avoids that direction's
exclusion set — spelled out literally as in the claim — and every retained
key-value pair is unchanged (membership as a pair). -/
theorem headerFilters_exact (hs : Headers) (kv : String × String) :
    (kv ∈ filteredHeadersForUpstream hs ↔
      kv ∈ hs ∧ kv.1.toLower ∉
        ["host", "content-length", "connection", "keep-alive",
         "proxy-authenticate", "proxy-authorization", "te", "trailers",
         "transfer-encoding", "upgrade", "accept-encoding"]) ∧
    (kv ∈ filteredHeadersForClient hs ↔
      kv ∈ hs ∧ kv.1.toLower ∉
        ["connection", "keep-alive", "proxy-authenticate",
         "proxy-authorization", "te", "trailers", "transfer-encoding",
         "upgrade", "content-encoding"]) := by
  constructor
  · rw [filteredHeadersForUpstream_mem]; rfl
  · rw [filteredHeadersForClient_mem]; rfl

/-- C2 counterexample: the body `[1]` is valid JSON with no `stream` field,
yet the classifier does not return streaming=false — line 94 raises
`AttributeError` because a decoded list has no `.get`. -/
theorem classifyStream_cex :
    classifyStream (some (JValue.arr [JValue.num 1])) =
        Except.error PyExn.attributeError ∧
    classifyStream (some (JValue.arr [JValue.num 1])) ≠ Except.ok false := by
  refine ⟨rfl, ?_⟩
  intro h
  rw [show classifyStream (some (JValue.arr [JValue.num 1])) =
      Except.error PyExn.attributeError from rfl] at h
  exact Except.noConfusion h

/-- C2 amended: on a body that fails to decode as JSON the classifier returns
streaming=false; on a body that decodes to a JSON object it returns
streaming=true exactly when a truthy `stream` field is present, and
streaming=false otherwise; on a body that decodes to any non-object JSON
value it raises an uncaught `AttributeError` instead of returning. -/
theorem classifyStream_spec (decoded : Option JValue) :
    (decoded = none → classifyStream decoded = Except.ok false) ∧
    (∀ fields, decoded = some (JValue.obj fields) →
      ((classifyStream decoded = Except.ok true ↔
          ∃ v, dictGet fields "stream" = some v ∧ truthy v = true) ∧
       (classifyStream decoded = Except.ok false ↔
          ¬ ∃ v, dictGet fields "stream" = some v ∧ truthy v = true))) ∧
    (∀ v, decoded = some v → (∀ fields, v ≠ JValue.obj fields) →
      classifyStream decoded = Except.error PyExn.attributeError) := by
  refine ⟨?_, ?_, ?_⟩
  · rintro rfl; rfl
  · rintro fields rfl
    constructor
    · simp only [classifyStream, Except.ok.injEq]
      exact pyBool_eq_true_iff _
    · simp only [classifyStream, Except.ok.injEq]
      rw [← pyBool_eq_true_iff]
      cases pyBool (dictGet fields "stream") <;> simp
  · rintro v rfl hne
    cases v with
    | obj fields => exact absurd rfl (hne fields)
    | null => rfl
    | bool b => rfl
    | num n => rfl
    | str s => rfl
    | arr xs => rfl

/-- C2 witness: a JSON object body with `"stream": true` is classified
streaming. -/
theorem classifyStream_spec_witness :
    classifyStream (some (JValue.obj [("stream", JValue.bool true)])) =
      Except.ok true :=
  ((classifyStream_spec
      (some (JValue.obj [("stream", JValue.bool true)]))).2.1
      [("stream", JValue.bool true)] rfl).1.mpr
    ⟨JValue.bool true, rfl, rfl⟩

/-- C3 counterexample: for the inbound body `[1]` — valid JSON missing the
`stream` flag — the handler does fail the request: it raises an uncaught
`AttributeError` and never forwards anything upstream. -/
theorem proxy_malformed_cex :
    (proxy_chat_completions
        { UPSTREAM_BASE_URL := "https://upstream.example/v1",
          UPSTREAM_API_KEY := none }
        { headers := [("accept", "*/*")],
          body := [0x5b, 0x31, 0x5d],
          decoded := some (JValue.arr [JValue.num 1]) }
        { delivered := [], ending := .eof }
        BufferedUpstream.connectError).result =
      HandlerResult.raised PyExn.attributeError ∧
    (proxy_chat_completions
        { UPSTREAM_BASE_URL := "https://upstream.example/v1",
          UPSTREAM_API_KEY := none }
        { headers := [("accept", "*/*")],
          body := [0x5b, 0x31, 0x5d],
          decoded := some (JValue.arr [JValue.num 1]) }
        { delivered := [], ending := .eof }
        BufferedUpstream.connectError).sent = none :=
  ⟨rfl, rfl⟩

/-- C3 amended: for every inbound body that is not valid JSON, or is valid
JSON decoding to an object without a `stream` field, the handler does not
fail the request: it classifies it non-streaming and forwards the body
verbatim upstream. (Bodies decoding to valid non-object JSON instead raise
before any forwarding.) -/
theorem proxy_malformed_forwards (cfg : Config) (req : Inbound)
    (sb : StreamBehavior) (bu : BufferedUpstream)
    (h : req.decoded = none ∨
      ∃ fields, req.decoded = some (JValue.obj fields) ∧
        dictGet fields "stream" = none) :
    classifyStream req.decoded = Except.ok false ∧
    ∃ u, (proxy_chat_completions cfg req sb bu).sent = some u ∧
      u.body = req.body := by
  have hclass : classifyStream req.decoded = Except.ok false := by
    rcases h with hnone | ⟨fields, hobj, habsent⟩
    · rw [hnone]; rfl
    · rw [hobj]
      simp [classifyStream, habsent, pyBool]
  refine ⟨hclass, ?_⟩
  exact ⟨_, proxy_ok_sent cfg req sb bu false hclass, rfl⟩

/-- C3 witness: the literal body `not-json` (Scenario 5) is treated as
non-streaming and its bytes are forwarded verbatim. -/
theorem proxy_malformed_forwards_witness :
    classifyStream (none : Option JValue) = Except.ok false ∧
    ∃ u, (proxy_chat_completions
        { UPSTREAM_BASE_URL := "https://upstream.example/v1",
          UPSTREAM_API_KEY := none }
        { headers := [("accept", "*/*")],
          body := [0x6e, 0x6f, 0x74, 0x2d, 0x6a, 0x73, 0x6f, 0x6e],
          decoded := none }
        { delivered := [], ending := .eof }
        (BufferedUpstream.response 200 [] [])).sent = some u ∧
      u.body = [0x6e, 0x6f, 0x74, 0x2d, 0x6a, 0x73, 0x6f, 0x6e] :=
  proxy_malformed_forwards
    { UPSTREAM_BASE_URL := "https://upstream.example/v1",
      UPSTREAM_API_KEY := none }
    { headers := [("accept", "*/*")],
      body := [0x6e, 0x6f, 0x74, 0x2d, 0x6a, 0x73, 0x6f, 0x6e],
      decoded := none }
    { delivered := [], ending := .eof }
    (BufferedUpstream.response 200 [] []) (Or.inl rfl)

/-- C4: whenever the handler issues an upstream request — in streaming or
non-streaming mode alike — its body is byte-identical to the inbound body
(`content=body` on lines 110 and 135; no re-serialization). -/
theorem proxy_body_verbatim (cfg : Config) (req : Inbound)
    (sb : StreamBehavior) (bu : BufferedUpstream) (u : UpstreamRequest)
    (h : (proxy_chat_completions cfg req sb bu).sent = some u) :
    u.body = req.body := by
  cases hc : classifyStream req.decoded with
  | error e =>
      rw [proxy_raised_of_classify_error cfg req sb bu e hc] at h
      exact Option.noConfusion h
  | ok b =>
      rw [proxy_ok_sent cfg req sb bu b hc] at h
      rw [← Option.some.inj h]

/-- C4 witness: a concrete request whose outbound body equals the inbound
bytes. -/
theorem proxy_body_verbatim_witness :
    ∃ u, (proxy_chat_completions
        { UPSTREAM_BASE_URL := "https://upstream.example/v1",
          UPSTREAM_API_KEY := none }
        { headers := [], body := [0x7b, 0x7d], decoded := some (JValue.obj []) }
        { delivered := [], ending := .eof }
        BufferedUpstream.connectError).sent = some u ∧
      u.body = [0x7b, 0x7d] :=
  ⟨_,
    proxy_ok_sent
      { UPSTREAM_BASE_URL := "https://upstream.example/v1",
        UPSTREAM_API_KEY := none }
      { headers := [], body := [0x7b, 0x7d], decoded := some (JValue.obj []) }
      { delivered := [], ending := .eof }
      BufferedUpstream.connectError false rfl,
    proxy_body_verbatim
      { UPSTREAM_BASE_URL := "https://upstream.example/v1",
        UPSTREAM_API_KEY := none }
      { headers := [], body := [0x7b, 0x7d], decoded := some (JValue.obj []) }
      { delivered := [], ending := .eof }
      BufferedUpstream.connectError _
      (proxy_ok_sent
        { UPSTREAM_BASE_URL := "https://upstream.example/v1",
          UPSTREAM_API_KEY := none }
        { headers := [], body := [0x7b, 0x7d], decoded := some (JValue.obj []) }
        { delivered := [], ending := .eof }
        BufferedUpstream.connectError false rfl)⟩

/-- C5: for a non-streaming request whose upstream call succeeds, the client
response carries the upstream status code, exactly the to-client-filtered
upstream headers (entries unchanged), the fully-buffered upstream body
unchanged, and the upstream content-type — `None` (unset) when upstream sent
no content-type (or an empty one). -/
theorem proxy_nonstreaming_mirror (cfg : Config) (req : Inbound)
    (sb : StreamBehavior) (status : Nat) (hs : Headers) (body : Bytes)
    (hclass : classifyStream req.decoded = Except.ok false) :
    ∃ resp, (proxy_chat_completions cfg req sb
        (BufferedUpstream.response status hs body)).result =
        HandlerResult.buffered resp ∧
      resp.status = status ∧
      resp.body = body ∧
      (∀ kv, kv ∈ resp.headers ↔ kv ∈ hs ∧ kv.1.toLower ∉ hopByHopClient) ∧
      (headersGet hs "content-type" = none → resp.media_type = none) ∧
      (∀ ct, headersGet hs "content-type" = some ct →
        resp.media_type = if ct = "" then none else some ct) := by
  refine ⟨{ status := status, headers := filteredHeadersForClient hs,
            body := body,
            media_type :=
              if (headersGet hs "content-type").getD "" = "" then none
              else some ((headersGet hs "content-type").getD "") },
      ?_, rfl, rfl, ?_, ?_, ?_⟩
  · unfold proxy_chat_completions
    rw [hclass]
    rfl
  · exact fun kv => filteredHeadersForClient_mem hs kv
  · intro hnone
    simp [hnone]
  · intro ct hct
    rw [hct]
    by_cases h : ct = "" <;> simp [h]

/-- C5 witness: Scenario 1 — upstream answers 200 with
`content-type: application/json`; the proxy mirrors status, filtered headers,
body and content-type. -/
theorem proxy_nonstreaming_mirror_witness :
    ∃ resp, (proxy_chat_completions
        { UPSTREAM_BASE_URL := "https://upstream.example/v1",
          UPSTREAM_API_KEY := none }
        { headers := [("accept", "*/*")],
          body := [0x7b, 0x7d],
          decoded := some (JValue.obj [("stream", JValue.bool false)]) }
        { delivered := [], ending := .eof }
        (BufferedUpstream.response 200
          [("content-type", "application/json")] [0x7b, 0x7d])).result =
        HandlerResult.buffered resp ∧
      resp.status = 200 ∧
      resp.body = [0x7b, 0x7d] ∧
      (∀ kv, kv ∈ resp.headers ↔
        kv ∈ [("content-type", "application/json")] ∧
        kv.1.toLower ∉ hopByHopClient) ∧
      (headersGet [("content-type", "application/json")] "content-type" =
          none → resp.media_type = none) ∧
      (∀ ct, headersGet [("content-type", "application/json")] "content-type" =
          some ct → resp.media_type = if ct = "" then none else some ct) :=
  proxy_nonstreaming_mirror
    { UPSTREAM_BASE_URL := "https://upstream.example/v1",
      UPSTREAM_API_KEY := none }
    { headers := [("accept", "*/*")],
      body := [0x7b, 0x7d],
      decoded := some (JValue.obj [("stream", JValue.bool false)]) }
    { delivered := [], ending := .eof }
    200 [("content-type", "application/json")] [0x7b, 0x7d] rfl

/-- C6 counterexample: with upstream chunks `[100]` then the empty chunk,
the relay does not forward every received chunk — the `if chunk:` guard on
line 114 drops the empty one. -/
theorem event_generator_cex :
    (event_generator
        { delivered := [[100], []], ending := StreamEnd.eof }).yields ≠
      [[100], []] := by
  decide

/-- C6 amended: for every streaming-classified request the client response is
started with status 200 and media type `text/event-stream`; every nonempty
chunk received from upstream is forwarded unmodified and in arrival order,
empty chunks are skipped (leaving the concatenated byte stream identical),
and on normal upstream closure the client stream ends cleanly with no
trailing data and no error. -/
theorem proxy_streaming_relay (cfg : Config) (req : Inbound)
    (sb : StreamBehavior) (bu : BufferedUpstream)
    (hclass : classifyStream req.decoded = Except.ok true) :
    ∃ gen, (proxy_chat_completions cfg req sb bu).result =
        HandlerResult.streaming 200 "text/event-stream" gen ∧
      gen.yields = sb.delivered.filter (fun chunk => !chunk.isEmpty) ∧
      gen.yields.flatten = sb.delivered.flatten ∧
      gen.raised = none := by
  refine ⟨event_generator sb, ?_, ?_, ?_, ?_⟩
  · unfold proxy_chat_completions
    rw [hclass]
    rfl
  · rw [event_generator_eq]
  · rw [event_generator_eq]
    exact flatten_filter_nonempty _
  · rw [event_generator_eq]

/-- C6 witness: Scenario 2 — `{"stream":true}` with two upstream chunks
relayed in order and a clean ending. -/
theorem proxy_streaming_relay_witness :
    ∃ gen, (proxy_chat_completions
        { UPSTREAM_BASE_URL := "https://upstream.example/v1",
          UPSTREAM_API_KEY := none }
        { headers := [("accept", "*/*")],
          body := [0x7b, 0x7d],
          decoded := some (JValue.obj [("stream", JValue.bool true)]) }
        { delivered := [[0x64, 0x61], [0x64, 0x62]], ending := .eof }
        BufferedUpstream.connectError).result =
        HandlerResult.streaming 200 "text/event-stream" gen ∧
      gen.yields = List.filter (fun chunk => !chunk.isEmpty)
        [[0x64, 0x61], [0x64, 0x62]] ∧
      gen.yields.flatten = List.flatten [[0x64, 0x61], [0x64, 0x62]] ∧
      gen.raised = none :=
  proxy_streaming_relay
    { UPSTREAM_BASE_URL := "https://upstream.example/v1",
      UPSTREAM_API_KEY := none }
    { headers := [("accept", "*/*")],
      body := [0x7b, 0x7d],
      decoded := some (JValue.obj [("stream", JValue.bool true)]) }
    { delivered := [[0x64, 0x61], [0x64, 0x62]], ending := .eof }
    BufferedUpstream.connectError rfl

/-- C7: for every streaming-classified request whose upstream interaction
ends abnormally — mid-stream read error, transport closed-stream, or an
immediate connection failure (zero chunks delivered) — the client still sees
a started 200 `text/event-stream` response, the relay yields only chunks the
upstream actually delivered, in order, and no exception escapes the
generator: the stream just ends cleanly. -/
theorem proxy_streaming_failure_clean (cfg : Config) (req : Inbound)
    (sb : StreamBehavior) (bu : BufferedUpstream)
    (hclass : classifyStream req.decoded = Except.ok true)
    (_herr : sb.ending ≠ StreamEnd.eof) :
    ∃ gen, (proxy_chat_completions cfg req sb bu).result =
        HandlerResult.streaming 200 "text/event-stream" gen ∧
      gen.raised = none ∧
      List.Sublist gen.yields sb.delivered ∧
      (sb.delivered = [] → gen.yields = []) := by
  refine ⟨event_generator sb, ?_, ?_, ?_, ?_⟩
  · unfold proxy_chat_completions
    rw [hclass]
    rfl
  · rw [event_generator_eq]
  · rw [event_generator_eq]
    exact List.filter_sublist _
  · intro hnil
    rw [event_generator_eq]
    simp [hnil]

/-- C7 witness: Scenario 3 — `{"stream":true}` with an immediately failing
upstream connection still yields a clean, empty 200 event stream. -/
theorem proxy_streaming_failure_clean_witness :
    ∃ gen, (proxy_chat_completions
        { UPSTREAM_BASE_URL := "https://upstream.example/v1",
          UPSTREAM_API_KEY := none }
        { headers := [("accept", "*/*")],
          body := [0x7b, 0x7d],
          decoded := some (JValue.obj [("stream", JValue.bool true)]) }
        { delivered := [], ending := .otherError }
        BufferedUpstream.connectError).result =
        HandlerResult.streaming 200 "text/event-stream" gen ∧
      gen.raised = none ∧
      List.Sublist gen.yields [] ∧
      (([] : List Bytes) = [] → gen.yields = []) :=
  proxy_streaming_failure_clean
    { UPSTREAM_BASE_URL := "https://upstream.example/v1",
      UPSTREAM_API_KEY := none }
    { headers := [("accept", "*/*")],
      body := [0x7b, 0x7d],
      decoded := some (JValue.obj [("stream", JValue.bool true)]) }
    { delivered := [], ending := .otherError }
    BufferedUpstream.connectError rfl (by decide)

/-- C8: for every non-streaming request whose upstream call fails —
connection failure/timeout on entry, or a read error after a partial read —
the exception propagates out of the handler (the ASGI framework surfaces it
as a server error): the handler never returns a buffered response at all, so
it can neither fabricate a 200 nor pass a partial read off as complete. -/
theorem proxy_nonstreaming_failure_raises (cfg : Config) (req : Inbound)
    (sb : StreamBehavior) (bu : BufferedUpstream)
    (hclass : classifyStream req.decoded = Except.ok false)
    (hfail : bu = BufferedUpstream.connectError ∨
      ∃ got, bu = BufferedUpstream.readError got) :
    ∃ e, (proxy_chat_completions cfg req sb bu).result =
        HandlerResult.raised e ∧
      (e = PyExn.connectError ∨ e = PyExn.readError) ∧
      ∀ resp, (proxy_chat_completions cfg req sb bu).result ≠
        HandlerResult.buffered resp := by
  rcases hfail with rfl | ⟨got, rfl⟩
  · have hres : (proxy_chat_completions cfg req sb
        BufferedUpstream.connectError).result =
        HandlerResult.raised PyExn.connectError := by
      unfold proxy_chat_completions
      rw [hclass]
      rfl
    refine ⟨PyExn.connectError, hres, Or.inl rfl, ?_⟩
    intro resp h
    rw [hres] at h
    exact HandlerResult.noConfusion h
  · have hres : (proxy_chat_completions cfg req sb
        (BufferedUpstream.readError got)).result =
        HandlerResult.raised PyExn.readError := by
      unfold proxy_chat_completions
      rw [hclass]
      rfl
    refine ⟨PyExn.readError, hres, Or.inr rfl, ?_⟩
    intro resp h
    rw [hres] at h
    exact HandlerResult.noConfusion h

/-- C8 witness: a non-streaming request against an unreachable upstream makes
the handler raise rather than answer with any buffered response. -/
theorem proxy_nonstreaming_failure_raises_witness :
    ∃ e, (proxy_chat_completions
        { UPSTREAM_BASE_URL := "https://upstream.example/v1",
          UPSTREAM_API_KEY := none }
        { headers := [("accept", "*/*")],
          body := [0x7b, 0x7d],
          decoded := some (JValue.obj []) }
        { delivered := [], ending := .eof }
        BufferedUpstream.connectError).result = HandlerResult.raised e ∧
      (e = PyExn.connectError ∨ e = PyExn.readError) ∧
      ∀ resp, (proxy_chat_completions
        { UPSTREAM_BASE_URL := "https://upstream.example/v1",
          UPSTREAM_API_KEY := none }
        { headers := [("accept", "*/*")],
          body := [0x7b, 0x7d],
          decoded := some (JValue.obj []) }
        { delivered := [], ending := .eof }
        BufferedUpstream.connectError).result ≠
          HandlerResult.buffered resp :=
  proxy_nonstreaming_failure_raises
    { UPSTREAM_BASE_URL := "https://upstream.example/v1",
      UPSTREAM_API_KEY := none }
    { headers := [("accept", "*/*")],
      body := [0x7b, 0x7d],
      decoded := some (JValue.obj []) }
    { delivered := [], ending := .eof }
    BufferedUpstream.connectError rfl (Or.inl rfl)

/-- C10: the forwarding behaviour is independent of `UPSTREAM_API_KEY`: two
runs on the same inbound request and the same upstream behaviour that differ
only in the configured key produce identical handler traces (same outbound
request and same client-visible result), and every outbound header entry is
one of the inbound entries — the key is never injected into the outbound
headers. -/
theorem proxy_key_independent (base : String) (key1 key2 : Option String)
    (req : Inbound) (sb : StreamBehavior) (bu : BufferedUpstream) :
    proxy_chat_completions
        { UPSTREAM_BASE_URL := base, UPSTREAM_API_KEY := key1 } req sb bu =
      proxy_chat_completions
        { UPSTREAM_BASE_URL := base, UPSTREAM_API_KEY := key2 } req sb bu ∧
    (∀ u, (proxy_chat_completions
        { UPSTREAM_BASE_URL := base, UPSTREAM_API_KEY := key1 }
        req sb bu).sent = some u →
      ∀ kv, kv ∈ u.headers → kv ∈ req.headers) := by
  constructor
  · rfl
  · intro u hu kv hkv
    cases hc : classifyStream req.decoded with
    | error e =>
        rw [proxy_raised_of_classify_error _ req sb bu e hc] at hu
        exact Option.noConfusion hu
    | ok b =>
        rw [proxy_ok_sent _ req sb bu b hc] at hu
        rw [← Option.some.inj hu] at hkv
        exact ((filteredHeadersForUpstream_mem req.headers kv).mp hkv).1

/-- C10 witness: swapping a configured key for none leaves a concrete run's
whole trace unchanged. -/
theorem proxy_key_independent_witness :
    proxy_chat_completions
        { UPSTREAM_BASE_URL := "https://upstream.example/v1",
          UPSTREAM_API_KEY := some "secret-key" }
        { headers := [("accept", "*/*")],
          body := [0x7b, 0x7d],
          decoded := some (JValue.obj []) }
        { delivered := [], ending := .eof }
        (BufferedUpstream.response 200 [] []) =
      proxy_chat_completions
        { UPSTREAM_BASE_URL := "https://upstream.example/v1",
          UPSTREAM_API_KEY := none }
        { headers := [("accept", "*/*")],
          body := [0x7b, 0x7d],
          decoded := some (JValue.obj []) }
        { delivered := [], ending := .eof }
        (BufferedUpstream.response 200 [] []) :=
  (proxy_key_independent "https://upstream.example/v1" (some "secret-key")
    none
    { headers := [("accept", "*/*")],
      body := [0x7b, 0x7d],
      decoded := some (JValue.obj []) }
    { delivered := [], ending := .eof }
    (BufferedUpstream.response 200 [] [])).1

end APIproxy
